import Mathlib

/-!
Verification of the browser-session-driven workflow executor implicit in the
`testsprite_tests` scripts of the Job-portal repository.

Every script has the identical shape

    pw = None; browser = None; context = None
    try:
        pw = await async_api.async_playwright().start()
        browser = await pw.chromium.launch(...)
        context = await browser.new_context()
        page = await context.new_page()
        await page.goto("http://localhost:3000", wait_until="commit", timeout=10000)
        try: await page.wait_for_load_state("domcontentloaded", timeout=3000)
        except async_api.Error: pass
        for frame in page.frames:
            try: await frame.wait_for_load_state("domcontentloaded", timeout=3000)
            except async_api.Error: pass
        <per-script statements: locate / fill / click / goto / scroll / assert>
    finally:
        if context: await context.close()
        if browser: await browser.close()
        if pw: await pw.stop()

We embed that skeleton as `runScript`: an environment oracle `Env` decides
which fallible primitive succeeds, the statement language `Stmt` transcribes
the per-script bodies statement by statement, and execution produces an event
trace plus a final verdict (the single outcome delivered by `asyncio.run`).
-/

namespace JobPortal

/-- Outcome of one script run: clean return of `run_test` (`passed`), a
propagated `AssertionError` (`failed`), or any other propagated exception
(`error`). -/
inductive Verdict
  | passed
  | failed
  | error
deriving DecidableEq, Repr

/-- The exception kinds the scripts can raise: a playwright `async_api.Error`
(launch / context / page failures), a playwright `TimeoutError` (navigation,
interaction and visibility waits; a subclass of `async_api.Error`), a Python
`NameError` (evaluation of an unbound name such as `window`), and a Python
`AssertionError` from an `assert` statement. -/
inductive PyErr
  | apiError
  | timeoutError
  | nameError (id : String)
  | assertionError (msg : String)
deriving DecidableEq, Repr

/-- `wait_until` argument of `page.goto`: the scripts pass `"commit"` on the
initial navigation and omit the argument on later navigations, where
playwright defaults to waiting for the `load` event. -/
inductive WaitUntil
  | commit
  | load
deriving DecidableEq, Repr

/-- One entry of the event trace of a run.  `evClick`/`evFill` record the page
the locator was created against (`boundPage`), the last open page at the
moment the action executes (`lastPage`), the structural path, the logical
time of the action and whether it succeeded.  `evScroll` records that a
`page.mouse.wheel(0, window.innerHeight)` statement was reached (its argument
evaluation then raises `NameError`).  `evVerdict` marks the unique exit of
`asyncio.run(run_test())` delivering the run's outcome. -/
inductive Ev
  | evGoto (url : String) (wu : WaitUntil) (tmoMs : Nat) (ok : Bool)
  | evWaitLoad (frameId : Nat) (ok : Bool)
  | evWaitVisible (pageId : Nat) (ok : Bool)
  | evClick (boundPage : Nat) (lastPage : Nat) (path : String) (clock : Nat) (ok : Bool)
  | evFill (boundPage : Nat) (lastPage : Nat) (path : String) (value : String)
      (clock : Nat) (ok : Bool)
  | evScroll
  | evPred (desc : String) (val : Bool)
  | evCloseContext
  | evCloseBrowser
  | evStopPw
  | evVerdict (v : Verdict)
deriving DecidableEq, Repr

/-- A locator value `frame.locator(path).nth(idx)`: a lazy reference holding
the page it was created against, the structural path and the occurrence
index.  No DOM element is resolved at creation time. -/
structure ElemRef where
  pageId : Nat
  path : String
  idx : Nat
deriving DecidableEq, Repr

/-- The environment oracle: which fallible primitive operations succeed, and
the live DOM contents, all indexed by a logical clock that advances on every
awaited operation.

* `commitOk t` — the navigation issued at time `t` reaches its network commit
  point within the navigation timeout;
* `loadOk t` — the same navigation additionally reaches the `load` event
  within the timeout (consulted only by full-load navigations);
* `waitOk t` — a `wait_for_load_state` / `wait_for(state=visible)` attempt at
  time `t` settles within its timeout;
* `domCount t p path` — how many elements match `path` on page `p` at time
  `t`;
* `actionOk t` — the element targeted at time `t` is actionable (not covered
  or disabled) within the interaction timeout;
* `opensPage t` — the click performed at time `t` opens a new page (popup);
* `predVal t` — value of the assertion predicate evaluated at time `t`;
* `startOk`/`launchOk`/`newContextOk`/`newPageOk` — the four acquisition
  steps succeed;
* `initFrames` — the frames attached to the page when the settle loop runs. -/
structure Env where
  startOk : Bool
  launchOk : Bool
  newContextOk : Bool
  newPageOk : Bool
  commitOk : Nat → Bool
  loadOk : Nat → Bool
  waitOk : Nat → Bool
  domCount : Nat → Nat → String → Nat
  actionOk : Nat → Bool
  opensPage : Nat → Bool
  predVal : Nat → Bool
  initFrames : List Nat

/-- Interpreter state: the logical clock, the list of open pages of the
context (`context.pages`), the id generator for popup pages, the original
`page` variable, the current `frame` variable (a page id; the scripts
repeatedly rebind it with `frame = context.pages[-1]`), the current `elem`
variable, the named locator variables of TC013, the frame list of the page
and the event trace. -/
structure St where
  clock : Nat
  pages : List Nat
  nextPage : Nat
  pageVar : Nat
  frameVar : Nat
  elemVar : Option ElemRef
  locals : List (String × ElemRef)
  frames : List Nat
  events : List Ev
deriving Repr

/-- Advance the logical clock by one awaited operation. -/
def tick (st : St) : St := { st with clock := st.clock + 1 }

/-- Append one event to the trace. -/
def emit (st : St) (e : Ev) : St := { st with events := st.events ++ [e] }

/-- `context.pages[-1]`: the last open page (the scripts' own idiom for the
currently active page). -/
def lastPageId (st : St) : Nat := st.pages.getLastD 0

/-- The statement language: one constructor per Python statement shape that
occurs in the script bodies.

* `goto url wu tmo` — `await page.goto(url, ...)`; `wu` is `.commit` when the
  script passes `wait_until="commit"` and `.load` when the argument is
  omitted (playwright's default waits for the `load` event);
* `bestEffortLoadWait` — `try: await page.wait_for_load_state(...) except
  async_api.Error: pass`;
* `settleFrames` — the `for frame in page.frames:` loop of guarded waits;
* `lastPage` — `frame = context.pages[-1]`;
* `locate path idx` — `elem = frame.locator(path).nth(idx)`;
* `waitTimeout` — `await page.wait_for_timeout(ms)`;
* `click` / `fill` — `await elem.click(timeout=tmo)` / `await elem.fill(v)`;
* `wheel` — `await page.mouse.wheel(0, window.innerHeight)`;
* `storeLoc name path` — `name = frame.locator(path)` (TC013);
* `clickVar name tmo` — `await name.click()` on a stored locator (the context
  default timeout 5000 applies when the call passes none);
* `waitVisibleVar name tmo` — `await name.wait_for(state='visible', ...)`;
* `query path` — an awaited element query such as
  `await page.locator(path).text_content()`, which times out when no element
  matches;
* `assertCond desc` — `assert <condition>, desc` on an environment-dependent
  condition;
* `assertFalse msg` — the literal `assert False, msg`;
* `sleep` — `await asyncio.sleep(ms)`. -/
inductive Stmt
  | goto (url : String) (wu : WaitUntil) (tmoMs : Nat)
  | bestEffortLoadWait (tmoMs : Nat)
  | settleFrames (tmoMs : Nat)
  | lastPage
  | locate (path : String) (idx : Nat)
  | waitTimeout (ms : Nat)
  | click (tmoMs : Nat)
  | fill (value : String)
  | wheel
  | storeLoc (name : String) (path : String)
  | clickVar (name : String) (tmoMs : Nat)
  | waitVisibleVar (name : String) (tmoMs : Nat)
  | query (path : String)
  | assertCond (desc : String)
  | assertFalse (msg : String)
  | sleep (ms : Nat)
deriving DecidableEq, Repr

/-- Element resolution of a lazy locator against the live DOM at a given
time: the element exists when the occurrence index is below the number of
matches; otherwise the result is the `NotFound` value `none`.  Resolution is
a total function — it never raises. -/
def resolveRef (env : Env) (t : Nat) (r : ElemRef) : Option ElemRef :=
  if r.idx < env.domCount t r.pageId r.path then some r else none

/-- An interaction on reference `r` performed at state `st` succeeds when the
element resolves against the live DOM at the current time and is actionable
within the timeout. -/
def actionSucceeds (env : Env) (st : St) (r : ElemRef) : Bool :=
  (resolveRef env st.clock r).isSome && env.actionOk st.clock

/-- A full-load navigation waits past the commit point up to the `load`
event; a commit navigation waits only for the commit point. -/
def gotoSucceeds (env : Env) (st : St) : WaitUntil → Bool
  | .commit => env.commitOk st.clock
  | .load => env.commitOk st.clock && env.loadOk st.clock

/-- `await frame.wait_for_load_state("domcontentloaded", timeout=tmo)` as a
result-returning wait. -/
def waitLoadState (env : Env) (st : St) : Except PyErr Unit :=
  if env.waitOk st.clock then .ok () else .error .timeoutError

/-- The `for frame in page.frames:` loop: each frame is waited on in turn, a
timeout is caught by the per-frame `except async_api.Error: pass`, and the
loop always proceeds to the next frame. -/
def settleLoop (env : Env) (st : St) : List Nat → St
  | [] => st
  | f :: fs =>
      let ok := match waitLoadState env st with
        | .ok _ => true
        | .error _ => false
      settleLoop env (tick (emit st (.evWaitLoad f ok))) fs

/-- A successful click opens a popup page when the environment says so,
appending it to `context.pages`. -/
def afterClick (env : Env) (st : St) : St :=
  if env.opensPage st.clock then
    { st with pages := st.pages ++ [st.nextPage], nextPage := st.nextPage + 1 }
  else st

/-- One statement of the script body.  An exception carries the state (with
its trace) at the point of the raise. -/
def execStmt (env : Env) (st : St) : Stmt → Except (PyErr × St) St
  | .goto url wu _tmo =>
      let ok := gotoSucceeds env st wu
      let st1 := tick (emit st (.evGoto url wu _tmo ok))
      if ok then .ok st1 else .error (.timeoutError, st1)
  | .bestEffortLoadWait _tmo =>
      match waitLoadState env st with
      | .ok _ => .ok (tick (emit st (.evWaitLoad st.pageVar true)))
      | .error _ => .ok (tick (emit st (.evWaitLoad st.pageVar false)))
  | .settleFrames _tmo => .ok (settleLoop env st st.frames)
  | .lastPage => .ok { st with frameVar := lastPageId st }
  | .locate path idx => .ok { st with elemVar := some ⟨st.frameVar, path, idx⟩ }
  | .waitTimeout _ms => .ok (tick st)
  | .click _tmo =>
      match st.elemVar with
      | none => .error (.nameError "elem", st)
      | some r =>
          let ok := actionSucceeds env st r
          let st1 := emit st (.evClick r.pageId (lastPageId st) r.path st.clock ok)
          if ok then .ok (tick (afterClick env st1)) else .error (.timeoutError, tick st1)
  | .fill v =>
      match st.elemVar with
      | none => .error (.nameError "elem", st)
      | some r =>
          let ok := actionSucceeds env st r
          let st1 := emit st (.evFill r.pageId (lastPageId st) r.path v st.clock ok)
          if ok then .ok (tick st1) else .error (.timeoutError, tick st1)
  | .wheel =>
      .error (.nameError "window", emit st .evScroll)
  | .storeLoc name path =>
      .ok { st with locals := (name, ⟨st.frameVar, path, 0⟩) :: st.locals }
  | .clickVar name _tmo =>
      match (st.locals.find? fun p => p.1 == name) with
      | none => .error (.nameError name, st)
      | some (_, r) =>
          let ok := actionSucceeds env st r
          let st1 := emit st (.evClick r.pageId (lastPageId st) r.path st.clock ok)
          if ok then .ok (tick (afterClick env st1)) else .error (.timeoutError, tick st1)
  | .waitVisibleVar name _tmo =>
      match (st.locals.find? fun p => p.1 == name) with
      | none => .error (.nameError name, st)
      | some (_, r) =>
          let ok := env.waitOk st.clock
          let st1 := tick (emit st (.evWaitVisible r.pageId ok))
          if ok then .ok st1 else .error (.timeoutError, st1)
  | .query path =>
      if 0 < env.domCount st.clock st.pageVar path then .ok (tick st)
      else .error (.timeoutError, tick st)
  | .assertCond desc =>
      let v := env.predVal st.clock
      let st1 := tick (emit st (.evPred desc v))
      if v then .ok st1 else .error (.assertionError desc, st1)
  | .assertFalse msg =>
      .error (.assertionError msg, tick (emit st (.evPred msg false)))
  | .sleep _ms => .ok (tick st)

/-- Strictly sequential execution: the first raised exception propagates and
no later statement runs. -/
def execStmts (env : Env) (st : St) : List Stmt → Except (PyErr × St) St
  | [] => .ok st
  | s :: ss =>
      match execStmt env st s with
      | .ok st' => execStmts env st' ss
      | .error e => .error e

/-- State right after `page = await context.new_page()`. -/
def initSt (env : Env) : St :=
  { clock := 0, pages := [0], nextPage := 1, pageVar := 0, frameVar := 0,
    elemVar := none, locals := [], frames := env.initFrames, events := [] }

/-- The statements shared verbatim by every script between page creation and
the per-script body: the committed navigation, the guarded main-page load
wait and the frame settle loop. -/
def preludeStmts : List Stmt :=
  [ .goto "http://localhost:3000" .commit 10000,
    .bestEffortLoadWait 3000,
    .settleFrames 3000 ]

/-- Which of the three guarded resources (`pw`, `browser`, `context`) were
assigned before the `finally` block runs. -/
structure Acq where
  pw : Bool
  browser : Bool
  ctx : Bool
deriving DecidableEq, Repr

/-- A resource variable is non-`None` in the `finally` block exactly when
every acquisition step up to and including its own succeeded. -/
def acqOf (env : Env) : Acq :=
  ⟨env.startOk, env.startOk && env.launchOk,
    env.startOk && env.launchOk && env.newContextOk⟩

/-- The `try` block: the four acquisition steps (each raising
`async_api.Error` on failure, before the next variable is assigned), then the
shared prelude, then the per-script statements. -/
def tryBody (env : Env) (prog : List Stmt) : Except (PyErr × St) St :=
  if env.startOk then
    if env.launchOk then
      if env.newContextOk then
        if env.newPageOk then
          execStmts env (initSt env) (preludeStmts ++ prog)
        else .error (.apiError, initSt env)
      else .error (.apiError, initSt env)
    else .error (.apiError, initSt env)
  else .error (.apiError, initSt env)

/-- The `finally` block: `if context: await context.close()`, then
`if browser: await browser.close()`, then `if pw: await pw.stop()`. -/
def teardownEvents (a : Acq) : List Ev :=
  (if a.ctx then [Ev.evCloseContext] else []) ++
  (if a.browser then [Ev.evCloseBrowser] else []) ++
  (if a.pw then [Ev.evStopPw] else [])

/-- Classify the propagated outcome of the `try` block: a clean return passes,
a propagated `AssertionError` fails, and any other propagated exception is an
infrastructure error. -/
def classify : Except (PyErr × St) St → Verdict
  | .ok _ => .passed
  | .error (.assertionError _, _) => .failed
  | .error _ => .error

/-- Trace accumulated by the `try` block, whether or not it raised. -/
def eventsOf : Except (PyErr × St) St → List Ev
  | .ok st => st.events
  | .error (_, st) => st.events

/-- State carried by the result of a statement, whether or not it raised. -/
def stOf : Except (PyErr × St) St → St
  | .ok st => st
  | .error (_, st) => st

/-- `asyncio.run(run_test())` for one script: run the `try` block, run the
`finally` block, and deliver the single outcome. -/
def runScript (env : Env) (prog : List Stmt) : Verdict × List Ev :=
  let r := tryBody env prog
  let v := classify r
  (v, eventsOf r ++ teardownEvents (acqOf env) ++ [Ev.evVerdict v])

/-- The four-line click idiom repeated by every script:
`frame = context.pages[-1]; elem = frame.locator(p).nth(0);`
`await page.wait_for_timeout(3000); await elem.click(timeout=5000)`. -/
def clickStep (p : String) : List Stmt :=
  [.lastPage, .locate p 0, .waitTimeout 3000, .click 5000]

/-- The four-line fill idiom repeated by every script:
`frame = context.pages[-1]; elem = frame.locator(p).nth(0);`
`await page.wait_for_timeout(3000); await elem.fill(v)`. -/
def fillStep (p : String) (v : String) : List Stmt :=
  [.lastPage, .locate p 0, .waitTimeout 3000, .fill v]

/-- Body of `TC001_EmailPassword_Authentication_Success.py` after the shared
prelude (lines 48-104 of the source). -/
def tc001Prog : List Stmt :=
  clickStep "xpath=html/body/div/header/div/div[2]/div/a[2]" ++
  fillStep "xpath=html/body/div/main/div/div/div[2]/form/div/input" "Test Candidate" ++
  fillStep "xpath=html/body/div/main/div/div/div[2]/form/div[2]/input" "candidate@example.com" ++
  fillStep "xpath=html/body/div/main/div/div/div[2]/form/div[3]/input" "Password123!" ++
  clickStep "xpath=html/body/div/main/div/div/div[2]/form/div[4]/button" ++
  [.wheel] ++
  clickStep "xpath=html/body/div[2]/div/div/div[2]" ++
  clickStep "xpath=html/body/div/main/div/div/div[2]/form/div[4]/button" ++
  clickStep "xpath=html/body/div[2]/div/div/div" ++
  clickStep "xpath=html/body/div/main/div/div/div[2]/form/button" ++
  [.assertFalse "Test plan execution failed: generic failure assertion.",
   .sleep 5000]

/-- Body of `TC002_Recruiter_Login_and_Access_Control.py` after the shared
prelude (lines 48-87 of the source).  The final four `assert` statements are
the script's assertion checkpoint. -/
def tc002Prog : List Stmt :=
  clickStep "xpath=html/body/div/header/div/div[2]/div/a" ++
  fillStep "xpath=html/body/div/main/div/div/div[2]/form/div/input" "recruiter@example.com" ++
  fillStep "xpath=html/body/div/main/div/div/div[2]/form/div[2]/input" "ValidPassword123" ++
  clickStep "xpath=html/body/div/main/div/div/div[2]/form/button" ++
  clickStep "xpath=html/body/div/main/div/div/div[2]/form[2]/button" ++
  [.assertCond "Recruiter dashboard not loaded or URL mismatch",
   .assertCond "Post a Job feature not accessible",
   .assertCond "Application Management feature not accessible",
   .assertCond "Interviewing feature not accessible",
   .sleep 5000]

/-- Body of `TC011_Candidate_Application_and_Status_Tracking.py` after the
shared prelude (lines 48-113 of the source).  The navigation at line 93
passes no `wait_until`, so it waits for the full `load` event. -/
def tc011Prog : List Stmt :=
  clickStep "xpath=html/body/div/header/div/div/nav/a[2]" ++
  clickStep "xpath=html/body/div/header/div/div[2]/div/a" ++
  fillStep "xpath=html/body/div/main/div/div/div[2]/form/div/input" "candidate@example.com" ++
  fillStep "xpath=html/body/div/main/div/div/div[2]/form/div[2]/input" "CandidatePass123" ++
  clickStep "xpath=html/body/div/main/div/div/div[2]/form/button" ++
  fillStep "xpath=html/body/div/main/div/section/div/div/div/form/div/div/input" "Software Engineer" ++
  fillStep "xpath=html/body/div/main/div/section/div/div/div/form/div/div[2]/input" "New York" ++
  clickStep "xpath=html/body/div/main/div/section/div/div/div/form/div[2]/button" ++
  [.goto "http://localhost:3000/jobs" .load 10000] ++
  fillStep "xpath=html/body/div/main/div/div/div/div/form/div/div/input" "Software Engineer" ++
  fillStep "xpath=html/body/div/main/div/div/div/div/form/div/div[2]/input" "New York" ++
  clickStep "xpath=html/body/div/main/div/div/div/div/form/div[2]/button" ++
  [.assertFalse "Test plan execution failed: generic failure assertion.",
   .sleep 5000]

/-- Body of `TC013_System_Build_and_Deployment_Verifications.py` after the
shared prelude (lines 48-105 of the source).  The mid-script navigations pass
no `wait_until` (full-load waits); lines 59 and 63 are the
`page.mouse.wheel(0, window.innerHeight)` statements. -/
def tc013buildProg : List Stmt :=
  [.goto "http://localhost:3000/build" .load 10000] ++
  clickStep "xpath=html/body/div/header/div/div/a" ++
  [.wheel, .wheel] ++
  clickStep "xpath=html/body/div/header/div/div[2]/div/a" ++
  fillStep "xpath=html/body/div/main/div/div/div[2]/form/div/input" "admin@example.com" ++
  fillStep "xpath=html/body/div/main/div/div/div[2]/form/div[2]/input" "AdminPass123" ++
  clickStep "xpath=html/body/div/main/div/div/div[2]/form/button" ++
  [.goto "http://localhost:3000" .load 10000,
   .assertCond "Critical errors found during build process.",
   .goto "http://localhost:3000/test-results" .load 10000,
   .assertCond "Some tests have failed in the test suite.",
   .goto "http://localhost:3000" .load 10000,
   .assertCond "Deployed application main page title is incorrect or missing.",
   .assertCond "Runtime errors found in deployed application.",
   .sleep 5000]

/-- Body of `TC016_Automated_Tests_Execution_and_Coverage_Verification.py`
after the shared prelude (lines 48-88 of the source).  Lines 59 and 63 are
the `window.innerHeight` scroll statements; the `text_content()` calls of
lines 72-74 are awaited element queries that time out when no element
matches. -/
def tc016Prog : List Stmt :=
  [.goto "http://localhost:3000/test" .load 10000] ++
  clickStep "xpath=html/body/div/header/div/div/a" ++
  [.wheel, .wheel,
   .assertCond "There are critical or high severity test failures detected.",
   .query "text=Authentication Coverage:",
   .query "text=Job Posting Coverage:",
   .query "text=Payments Coverage:",
   .assertCond "Authentication coverage below threshold",
   .assertCond "Job Posting coverage below threshold",
   .assertCond "Payments coverage below threshold",
   .sleep 5000]

/-- Body of `TC013_Role_Based_Dashboard_Data_Accuracy_and_Real_Time_Updates.py`
after the shared prelude (lines 48-139 of the source).  Lines 115-138 store
named locators (`candidate_dashboard`, `logout_button`, ...) and reuse
`logout_button` at line 131 after intervening steps; the `wait_for(state=
'visible')` calls and the stored-locator clicks use the context default
timeout 5000. -/
def tc013roleProg : List Stmt :=
  clickStep "xpath=html/body/div/header/div/div[2]/div/a" ++
  fillStep "xpath=html/body/div/main/div/div/div[2]/form/div/input" "candidate@example.com" ++
  fillStep "xpath=html/body/div/main/div/div/div[2]/form/div[2]/input" "CandidatePass123" ++
  clickStep "xpath=html/body/div/main/div/div/div[2]/form/button" ++
  clickStep "xpath=html/body/div/header/div/div[2]/div/a" ++
  fillStep "xpath=html/body/div/main/div/div/div[2]/form/div/input" "recruiter@example.com" ++
  fillStep "xpath=html/body/div/main/div/div/div[2]/form/div[2]/input" "RecruiterPass123" ++
  clickStep "xpath=html/body/div/main/div/div/div[2]/form/button" ++
  clickStep "xpath=html/body/div/header/div/div[2]/div/a" ++
  fillStep "xpath=html/body/div/main/div/div/div[2]/form/div/input" "admin@example.com" ++
  fillStep "xpath=html/body/div/main/div/div/div[2]/form/div[2]/input" "AdminPass123" ++
  clickStep "xpath=html/body/div/main/div/div/div[2]/form/button" ++
  [.storeLoc "candidate_dashboard" "xpath=//div[@id=\"candidate-dashboard\"]",
   .waitVisibleVar "candidate_dashboard" 5000,
   .assertCond "candidate Applications stat visible",
   .assertCond "candidate Match Scores stat visible",
   .assertCond "candidate Career Insights stat visible",
   .storeLoc "logout_button" "xpath=//button[text()=\"Logout\"]",
   .clickVar "logout_button" 5000,
   .waitTimeout 3000,
   .storeLoc "recruiter_dashboard" "xpath=//div[@id=\"recruiter-dashboard\"]",
   .waitVisibleVar "recruiter_dashboard" 5000,
   .assertCond "recruiter Job Posts stat visible",
   .assertCond "recruiter Application Pipeline stat visible",
   .assertCond "recruiter Hiring Credits stat visible",
   .clickVar "logout_button" 5000,
   .waitTimeout 3000,
   .storeLoc "admin_dashboard" "xpath=//div[@id=\"admin-dashboard\"]",
   .waitVisibleVar "admin_dashboard" 5000,
   .assertCond "admin System Analytics panel visible",
   .assertCond "admin Feature Flags panel visible",
   .assertCond "admin User Overview panel visible",
   .sleep 5000]

/-! ### Trace classification helpers -/

/-- An event produced by the `finally` block. -/
def isTeardownEv : Ev → Bool
  | .evCloseContext => true
  | .evCloseBrowser => true
  | .evStopPw => true
  | _ => false

/-- The event marking the delivery of the run's outcome. -/
def isVerdictEv : Ev → Bool
  | .evVerdict _ => true
  | _ => false

/-- The event marking a reached `window.innerHeight` scroll statement. -/
def isScrollEv : Ev → Bool
  | .evScroll => true
  | _ => false

/-- The event marking one evaluated assertion predicate. -/
def isPredEv : Ev → Bool
  | .evPred _ _ => true
  | _ => false

/-- A recorded click attempt. -/
def isClickEv : Ev → Bool
  | .evClick _ _ _ _ _ => true
  | _ => false

/-- A recorded fill attempt. -/
def isFillEv : Ev → Bool
  | .evFill _ _ _ _ _ _ => true
  | _ => false

/-- An event that the `try` block body can produce (anything except the
teardown closes and the final verdict delivery). -/
def isBodyEv (e : Ev) : Bool := !(isTeardownEv e || isVerdictEv e)

/-- An `assert` statement of the statement language. -/
def isAssertStmt : Stmt → Bool
  | .assertCond _ => true
  | .assertFalse _ => true
  | _ => false

/-- A click attempt whose locator was bound to a page other than the last
open page at the moment the click executed. -/
def hasStaleClick (tr : List Ev) : Bool :=
  tr.any fun e =>
    match e with
    | .evClick b l _ _ _ => b != l
    | _ => false

/-! ### Ghost event-spec functions: what each construct appends to the trace -/

/-- Events of one pass of the frame settle loop starting at clock `c`: one
wait attempt per frame, in order. -/
def settleEvs (env : Env) (c : Nat) : List Nat → List Ev
  | [] => []
  | f :: fs => Ev.evWaitLoad f (env.waitOk c) :: settleEvs env (c + 1) fs

/-- The events one statement appends to the trace, as a function of the state
it runs from (whether the statement then succeeds or raises). -/
def emitted (env : Env) (st : St) : Stmt → List Ev
  | .goto url wu tmo => [.evGoto url wu tmo (gotoSucceeds env st wu)]
  | .bestEffortLoadWait _ => [.evWaitLoad st.pageVar (env.waitOk st.clock)]
  | .settleFrames _ => settleEvs env st.clock st.frames
  | .lastPage => []
  | .locate _ _ => []
  | .waitTimeout _ => []
  | .click _ =>
      match st.elemVar with
      | none => []
      | some r => [.evClick r.pageId (lastPageId st) r.path st.clock (actionSucceeds env st r)]
  | .fill v =>
      match st.elemVar with
      | none => []
      | some r =>
          [.evFill r.pageId (lastPageId st) r.path v st.clock (actionSucceeds env st r)]
  | .wheel => [.evScroll]
  | .storeLoc _ _ => []
  | .clickVar name _ =>
      match (st.locals.find? fun p => p.1 == name) with
      | none => []
      | some (_, r) =>
          [.evClick r.pageId (lastPageId st) r.path st.clock (actionSucceeds env st r)]
  | .waitVisibleVar name _ =>
      match (st.locals.find? fun p => p.1 == name) with
      | none => []
      | some (_, r) => [.evWaitVisible r.pageId (env.waitOk st.clock)]
  | .query _ => []
  | .assertCond desc => [.evPred desc (env.predVal st.clock)]
  | .assertFalse msg => [.evPred msg false]
  | .sleep _ => []

/-! ### Structural lemmas about the interpreter -/

lemma settleLoop_events (env : Env) :
    ∀ (fs : List Nat) (st : St),
      (settleLoop env st fs).events = st.events ++ settleEvs env st.clock fs := by
  intro fs
  induction fs with
  | nil => intro st; simp [settleLoop, settleEvs]
  | cons f fs ih =>
      intro st
      by_cases h : env.waitOk st.clock <;>
        simp [settleLoop, settleEvs, waitLoadState, h, ih, tick, emit]

lemma settleLoop_frames (env : Env) :
    ∀ (fs : List Nat) (st : St), (settleLoop env st fs).frames = st.frames := by
  intro fs
  induction fs with
  | nil => intro st; simp [settleLoop]
  | cons f fs ih =>
      intro st
      by_cases h : env.waitOk st.clock <;>
        simp [settleLoop, waitLoadState, h, ih, tick, emit]

lemma settleEvs_length (env : Env) :
    ∀ (fs : List Nat) (c : Nat), (settleEvs env c fs).length = fs.length := by
  intro fs
  induction fs with
  | nil => intro c; rfl
  | cons f fs ih => intro c; simp [settleEvs, ih]

lemma settleEvs_shape (env : Env) :
    ∀ (fs : List Nat) (c : Nat) (e : Ev),
      e ∈ settleEvs env c fs → ∃ f b, e = Ev.evWaitLoad f b := by
  intro fs
  induction fs with
  | nil => intro c e h; simp [settleEvs] at h
  | cons f fs ih =>
      intro c e h
      simp only [settleEvs, List.mem_cons] at h
      rcases h with h | h
      · exact ⟨f, env.waitOk c, h⟩
      · exact ih (c + 1) e h

/-- Master shape lemma: a statement appends exactly its `emitted` events,
whether it returns or raises. -/
lemma execStmt_events (env : Env) (st : St) (s : Stmt) :
    (stOf (execStmt env st s)).events = st.events ++ emitted env st s := by
  cases s with
  | goto url wu tmo =>
      by_cases h : gotoSucceeds env st wu <;>
        simp [execStmt, emitted, h, stOf, tick, emit]
  | bestEffortLoadWait tmo =>
      by_cases h : env.waitOk st.clock <;>
        simp [execStmt, emitted, waitLoadState, h, stOf, tick, emit]
  | settleFrames tmo =>
      simpa [execStmt, emitted, stOf] using settleLoop_events env st.frames st
  | lastPage => simp [execStmt, emitted, stOf]
  | locate path idx => simp [execStmt, emitted, stOf]
  | waitTimeout ms => simp [execStmt, emitted, stOf, tick]
  | click tmo =>
      cases h : st.elemVar with
      | none => simp [execStmt, emitted, h, stOf]
      | some r =>
          by_cases ha : actionSucceeds env st r <;>
            simp [execStmt, emitted, h, ha, stOf, tick, emit, afterClick] <;>
            split <;> simp
  | fill v =>
      cases h : st.elemVar with
      | none => simp [execStmt, emitted, h, stOf]
      | some r =>
          by_cases ha : actionSucceeds env st r <;>
            simp [execStmt, emitted, h, ha, stOf, tick, emit]
  | wheel => simp [execStmt, emitted, stOf, emit]
  | storeLoc name path => simp [execStmt, emitted, stOf]
  | clickVar name tmo =>
      cases h : (st.locals.find? fun p => p.1 == name) with
      | none => simp [execStmt, emitted, h, stOf]
      | some pr =>
          by_cases ha : actionSucceeds env st pr.2 <;>
            simp [execStmt, emitted, h, ha, stOf, tick, emit, afterClick] <;>
            split <;> simp
  | waitVisibleVar name tmo =>
      cases h : (st.locals.find? fun p => p.1 == name) with
      | none => simp [execStmt, emitted, h, stOf]
      | some pr =>
          by_cases ha : env.waitOk st.clock <;>
            simp [execStmt, emitted, h, ha, stOf, tick, emit]
  | query path =>
      by_cases h : 0 < env.domCount st.clock st.pageVar path <;>
        simp [execStmt, emitted, h, stOf, tick]
  | assertCond desc =>
      by_cases h : env.predVal st.clock <;>
        simp [execStmt, emitted, h, stOf, tick, emit]
  | assertFalse msg => simp [execStmt, emitted, stOf, tick, emit]
  | sleep ms => simp [execStmt, emitted, stOf, tick]

/-- Every event a body statement emits is a body event: the closes and the
verdict delivery are produced only by the skeleton around the statements. -/
lemma emitted_bodyEv (env : Env) (st : St) (s : Stmt) :
    ∀ e ∈ emitted env st s, isBodyEv e = true := by
  intro e he
  cases s
  all_goals simp only [emitted] at he
  case settleFrames tmo =>
    rcases settleEvs_shape env st.frames st.clock e he with ⟨f, b, rfl⟩
    rfl
  all_goals try split at he
  all_goals simp at he
  all_goals subst he
  all_goals rfl

/-- Only a `wheel` statement emits the scroll marker. -/
lemma emitted_scrollFree (env : Env) (st : St) (s : Stmt) (hs : s ≠ Stmt.wheel) :
    ∀ e ∈ emitted env st s, isScrollEv e = false := by
  intro e he
  cases s
  case wheel => exact absurd rfl hs
  all_goals simp only [emitted] at he
  case settleFrames tmo =>
    rcases settleEvs_shape env st.frames st.clock e he with ⟨f, b, rfl⟩
    rfl
  all_goals try split at he
  all_goals simp at he
  all_goals subst he
  all_goals rfl

/-- Only `assert` statements emit predicate-evaluation events. -/
lemma emitted_predFree (env : Env) (st : St) (s : Stmt) (hs : isAssertStmt s = false) :
    ∀ e ∈ emitted env st s, isPredEv e = false := by
  intro e he
  cases s
  case assertCond desc => simp [isAssertStmt] at hs
  case assertFalse msg => simp [isAssertStmt] at hs
  all_goals simp only [emitted] at he
  case settleFrames tmo =>
    rcases settleEvs_shape env st.frames st.clock e he with ⟨f, b, rfl⟩
    rfl
  all_goals try split at he
  all_goals simp at he
  all_goals subst he
  all_goals rfl

lemma eventsOf_eq_stOf (r : Except (PyErr × St) St) : eventsOf r = (stOf r).events := by
  cases r with
  | ok st => rfl
  | error e => cases e; rfl

/-- Sequential execution only appends body events to a body-event trace. -/
lemma execStmts_bodyEv (env : Env) :
    ∀ (ss : List Stmt) (st : St),
      (∀ e ∈ st.events, isBodyEv e = true) →
      ∀ e ∈ (stOf (execStmts env st ss)).events, isBodyEv e = true := by
  intro ss
  induction ss with
  | nil => intro st h; exact h
  | cons s ss ih =>
      intro st h e he
      have hshape := execStmt_events env st s
      cases hr : execStmt env st s with
      | ok st' =>
          rw [hr] at hshape
          have hst' : ∀ e ∈ st'.events, isBodyEv e = true := by
            intro x hx
            rw [show (stOf (Except.ok st' : Except (PyErr × St) St)) = st' from rfl] at hshape
            rw [hshape] at hx
            rcases List.mem_append.mp hx with hx | hx
            · exact h x hx
            · exact emitted_bodyEv env st s x hx
          have : execStmts env st (s :: ss) = execStmts env st' ss := by
            simp [execStmts, hr]
          rw [this] at he
          exact ih st' hst' e he
      | error er =>
          have : execStmts env st (s :: ss) = .error er := by
            simp [execStmts, hr]
          rw [this] at he
          rw [hr] at hshape
          rw [hshape] at he
          rcases List.mem_append.mp he with hx | hx
          · exact h e hx
          · exact emitted_bodyEv env st s e hx

/-- Every event of the `finally` block is a teardown event. -/
lemma teardownEvents_shape (a : Acq) :
    ∀ e ∈ teardownEvents a, isTeardownEv e = true := by
  intro e he
  rcases a with ⟨p, b, c⟩
  cases p <;> cases b <;> cases c <;>
    simp [teardownEvents] at he <;>
    rcases he with rfl | rfl | rfl <;> rfl

lemma isBodyEv_not_teardown {e : Ev} (h : isBodyEv e = true) : isTeardownEv e = false := by
  cases e <;> simp [isBodyEv, isTeardownEv, isVerdictEv] at h ⊢

lemma isBodyEv_not_verdict {e : Ev} (h : isBodyEv e = true) : isVerdictEv e = false := by
  cases e <;> simp [isBodyEv, isTeardownEv, isVerdictEv] at h ⊢

lemma isTeardownEv_not_verdict {e : Ev} (h : isTeardownEv e = true) :
    isVerdictEv e = false ∧ isScrollEv e = false ∧ isPredEv e = false := by
  cases e <;> simp [isTeardownEv, isVerdictEv, isScrollEv, isPredEv] at h ⊢

/-- The trace of the whole `try` block consists of body events only. -/
lemma tryBody_bodyEv (env : Env) (prog : List Stmt) :
    ∀ e ∈ eventsOf (tryBody env prog), isBodyEv e = true := by
  intro e he
  rw [eventsOf_eq_stOf] at he
  unfold tryBody at he
  by_cases h1 : env.startOk <;> simp [h1] at he <;>
    [skip; (simp [stOf, initSt] at he)]
  by_cases h2 : env.launchOk <;> simp [h2] at he <;>
    [skip; (simp [stOf, initSt] at he)]
  by_cases h3 : env.newContextOk <;> simp [h3] at he <;>
    [skip; (simp [stOf, initSt] at he)]
  by_cases h4 : env.newPageOk <;> simp [h4] at he <;>
    [skip; (simp [stOf, initSt] at he)]
  exact execStmts_bodyEv env (preludeStmts ++ prog) (initSt env)
    (by intro x hx; simp [initSt] at hx) e he

/-- A statement list in which no `assert` statement occurs before the first
`window.innerHeight` scroll statement (true of the three scripts whose
assertions all come after their first scroll). -/
def noPredBeforeWheel : List Stmt → Bool
  | [] => true
  | .wheel :: _ => true
  | .assertCond _ :: _ => false
  | .assertFalse _ :: _ => false
  | _ :: ss => noPredBeforeWheel ss

/-- If a run of a statement list with no `assert` before the first scroll
statement records a scroll marker, then the run raised `NameError` for
`window` at that very statement: the trace ends at the marker, nothing before
it is a scroll or a predicate evaluation, and no later statement ran. -/
lemma wheel_stops (env : Env) :
    ∀ (ss : List Stmt) (st : St),
      noPredBeforeWheel ss = true →
      (∀ e ∈ st.events, isScrollEv e = false ∧ isPredEv e = false) →
      Ev.evScroll ∈ (stOf (execStmts env st ss)).events →
      ∃ st', execStmts env st ss = .error (.nameError "window", st') ∧
        ∃ pre, st'.events = pre ++ [Ev.evScroll] ∧
          ∀ e ∈ pre, isScrollEv e = false ∧ isPredEv e = false := by
  intro ss
  induction ss with
  | nil =>
      intro st hnp hinv hmem
      simp only [execStmts, stOf] at hmem
      exact absurd (hinv _ hmem).1 (by simp [isScrollEv])
  | cons s ss ih =>
      intro st hnp hinv hmem
      by_cases hw : s = Stmt.wheel
      · subst hw
        refine ⟨emit st Ev.evScroll, ?_, st.events, ?_, hinv⟩
        · simp [execStmts, execStmt]
        · simp [emit]
      · have hpair : isAssertStmt s = false ∧ noPredBeforeWheel ss = true := by
          cases s <;> simp_all [noPredBeforeWheel, isAssertStmt]
        obtain ⟨hna, hnp'⟩ := hpair
        have hshape := execStmt_events env st s
        cases hr : execStmt env st s with
        | error er =>
            have hee : execStmts env st (s :: ss) = .error er := by
              simp [execStmts, hr]
            rw [hee] at hmem
            rw [hr] at hshape
            rw [hshape] at hmem
            rcases List.mem_append.mp hmem with h | h
            · exact absurd (hinv _ h).1 (by simp [isScrollEv])
            · exact absurd (emitted_scrollFree env st s hw _ h) (by simp [isScrollEv])
        | ok st' =>
            have hee : execStmts env st (s :: ss) = execStmts env st' ss := by
              simp [execStmts, hr]
            have hinv' : ∀ e ∈ st'.events, isScrollEv e = false ∧ isPredEv e = false := by
              intro x hx
              rw [hr] at hshape
              rw [show stOf (Except.ok st' : Except (PyErr × St) St) = st' from rfl] at hshape
              rw [hshape] at hx
              rcases List.mem_append.mp hx with h | h
              · exact hinv x h
              · exact ⟨emitted_scrollFree env st s hw x h, emitted_predFree env st s hna x h⟩
            rw [hee] at hmem ⊢
            exact ih st' hnp' hinv' hmem

/-! ### Concrete environments used as test inputs -/

/-- An environment in which every primitive succeeds: acquisition works,
navigations commit and load, waits settle, every structural path matches one
element, elements are actionable, clicks open no popup, predicates hold. -/
def envAllOk : Env :=
  { startOk := true, launchOk := true, newContextOk := true, newPageOk := true,
    commitOk := fun _ => true, loadOk := fun _ => true, waitOk := fun _ => true,
    domCount := fun _ _ _ => 1, actionOk := fun _ => true,
    opensPage := fun _ => false, predVal := fun _ => true, initFrames := [0] }

/-- All-ok environment except that the browser launch fails. -/
def envLaunchFails : Env := { envAllOk with launchOk := false }

/-- All-ok environment except that every assertion predicate is false. -/
def envPredFalse : Env := { envAllOk with predVal := fun _ => false }

/-- All-ok environment except that no structural path matches any element. -/
def envNotFound : Env := { envAllOk with domCount := fun _ _ _ => 0 }

/-- All-ok environment except that no navigation reaches the `load` event
within its timeout (the commit point is still reached). -/
def envLoadFails : Env := { envAllOk with loadOk := fun _ => false }

/-- All-ok environment except that every successful click opens a popup
page. -/
def envPopups : Env := { envAllOk with opensPage := fun _ => true }

/-! ### Claim theorems -/

/-- C1: for every workflow run, on every exit path, the teardown closes run
exactly once, in the strict order context-close, browser-close, stop of the
automation handle, each close present exactly when that resource was
acquired; everything before them in the trace is body work, and they precede
the verdict delivery. -/
theorem teardown_runs_once_in_order (env : Env) (prog : List Stmt) :
    ∃ pre, (runScript env prog).2 =
        pre ++ teardownEvents (acqOf env) ++ [Ev.evVerdict (runScript env prog).1] ∧
      ∀ e ∈ pre, isTeardownEv e = false := by
  refine ⟨eventsOf (tryBody env prog), ?_, ?_⟩
  · simp [runScript]
  · intro e he
    exact isBodyEv_not_teardown (tryBody_bodyEv env prog e he)

/-- C5: every workflow run delivers exactly one verdict — the trace contains
exactly one verdict event, carrying the run's verdict, and that verdict is
one of passed, failed, error. -/
theorem one_verdict_per_run (env : Env) (prog : List Stmt) :
    (runScript env prog).2.filter isVerdictEv = [Ev.evVerdict (runScript env prog).1] ∧
    ((runScript env prog).1 = Verdict.passed ∨ (runScript env prog).1 = Verdict.failed ∨
      (runScript env prog).1 = Verdict.error) := by
  constructor
  · have h1 : (eventsOf (tryBody env prog)).filter isVerdictEv = [] := by
      rw [List.filter_eq_nil_iff]
      intro e he
      simp [isBodyEv_not_verdict (tryBody_bodyEv env prog e he)]
    have h2 : (teardownEvents (acqOf env)).filter isVerdictEv = [] := by
      rw [List.filter_eq_nil_iff]
      intro e he
      simp [(isTeardownEv_not_verdict (teardownEvents_shape _ e he)).1]
    simp [runScript, List.filter_append, h1, h2, isVerdictEv]
  · cases h : (runScript env prog).1 <;> simp

/-- C7: when the browser cannot launch, the run attempts no step (the trace
holds no body event at all), reports `Error`, and the `finally` block runs
without throwing, closing nothing but the automation handle that was
acquired. -/
theorem launch_failure_error_no_steps (env : Env) (prog : List Stmt)
    (h1 : env.startOk = true) (h2 : env.launchOk = false) :
    runScript env prog = (Verdict.error, [Ev.evStopPw, Ev.evVerdict Verdict.error]) := by
  simp [runScript, tryBody, h1, h2, classify, eventsOf, acqOf, teardownEvents, initSt]

theorem launch_failure_error_no_steps_witness :
    envLaunchFails.startOk = true ∧ envLaunchFails.launchOk = false ∧
    runScript envLaunchFails tc001Prog =
      (Verdict.error, [Ev.evStopPw, Ev.evVerdict Verdict.error]) :=
  ⟨rfl, rfl, launch_failure_error_no_steps envLaunchFails tc001Prog rfl rfl⟩

/-- C2: one pass of the frame settle loop waits on every attached frame
independently (one wait attempt per frame, in order, each with its own
outcome), never raises, and leaves the frame collection unchanged — a frame
whose wait timed out is neither dropped nor does it abort the loop or the
call. -/
theorem settle_keeps_timed_out_frames (env : Env) (st : St) (tmo : Nat) :
    ∃ st', execStmt env st (Stmt.settleFrames tmo) = .ok st' ∧
      st'.frames = st.frames ∧
      st'.events = st.events ++ settleEvs env st.clock st.frames ∧
      (settleEvs env st.clock st.frames).length = st.frames.length :=
  ⟨settleLoop env st st.frames, rfl, settleLoop_frames env st.frames st,
    settleLoop_events env st.frames st, settleEvs_length env st.frames st.clock⟩

/-- C9: creating a locator (`elem = frame.locator(path).nth(idx)`) always
returns normally — it binds a lazy reference and never raises — and resolving
a reference whose structural path matches zero elements at call time yields
the `NotFound` value `none`, not an exception; callers then decide what to do
with it. -/
theorem zero_matches_not_found (env : Env) (st : St) (path : String) (idx : Nat)
    (c p : Nat) :
    execStmt env st (Stmt.locate path idx) =
      .ok { st with elemVar := some ⟨st.frameVar, path, idx⟩ } ∧
    (env.domCount c p path = 0 → resolveRef env c ⟨p, path, idx⟩ = none) := by
  refine ⟨rfl, ?_⟩
  intro h
  simp [resolveRef, h]

theorem zero_matches_not_found_witness :
    envNotFound.domCount 0 0 "text=Post a Job" = 0 ∧
    resolveRef envNotFound 0 ⟨0, "text=Post a Job", 0⟩ = none :=
  ⟨rfl, (zero_matches_not_found envNotFound (initSt envNotFound)
    "text=Post a Job" 0 0 0).2 rfl⟩

/-- Events of one assertion checkpoint evaluated from clock `c`: predicates
are evaluated in declared order, and evaluation stops with the first failing
predicate (whose evaluation is still recorded). -/
def checkpointEvs (env : Env) (c : Nat) : List String → List Ev
  | [] => []
  | d :: ds =>
      if env.predVal c then Ev.evPred d true :: checkpointEvs env (c + 1) ds
      else [Ev.evPred d false]

/-- Every predicate of a checkpoint holds when evaluated in sequence from
clock `c`. -/
def allPredsTrue (env : Env) (c : Nat) : List String → Bool
  | [] => true
  | _ :: ds => env.predVal c && allPredsTrue env (c + 1) ds

/-- C3 counterexample: TC002 declares a checkpoint of four `assert`
statements, yet in a run where the first predicate is false exactly one
predicate is evaluated — the `assert` raises and the remaining three are
never evaluated, refuting "all N predicates are evaluated regardless of
earlier failures". -/
theorem checkpoint_short_circuits :
    tc002Prog.countP isAssertStmt = 4 ∧
    (runScript envPredFalse tc002Prog).1 = Verdict.failed ∧
    (runScript envPredFalse tc002Prog).2.countP isPredEv = 1 :=
  ⟨by decide, by decide, by decide⟩

/-- C3 amended: the predicates of a checkpoint are evaluated in declared
order only up to and including the first failing one — a failing `assert`
raises `AssertionError`, so the later predicates of the checkpoint are not
evaluated, and the run reports only that first failure; all predicates are
evaluated exactly when every one of them holds. -/
theorem checkpoint_stops_at_first_failure (env : Env) (st : St) (descs : List String) :
    (stOf (execStmts env st (descs.map Stmt.assertCond))).events
        = st.events ++ checkpointEvs env st.clock descs ∧
    ((∃ st', execStmts env st (descs.map Stmt.assertCond) = .ok st') ↔
      allPredsTrue env st.clock descs = true) := by
  induction descs generalizing st with
  | nil => simp [execStmts, stOf, checkpointEvs, allPredsTrue]
  | cons d ds ih =>
      by_cases h : env.predVal st.clock
      · have hrec := ih (tick (emit st (Ev.evPred d true)))
        constructor
        · simp only [List.map_cons, execStmts, execStmt, h, if_true]
          rw [hrec.1]
          simp [tick, emit, checkpointEvs, h]
        · simp only [List.map_cons, execStmts, execStmt, h, if_true]
          rw [hrec.2]
          simp [tick, emit, allPredsTrue, h]
      · constructor
        · simp [execStmts, execStmt, h, stOf, tick, emit, checkpointEvs]
        · simp [execStmts, execStmt, h, allPredsTrue]

/-- C4 counterexample: in a TC001 run where the first click finds no element
within its timeout, exactly one interaction is attempted and the verdict is
`Error`: none of the remaining declared steps (four fills and four further
clicks) executes, refuting "the remaining steps of the declared sequence are
still executed". -/
theorem failing_step_aborts_workflow :
    (runScript envNotFound tc001Prog).1 = Verdict.error ∧
    (runScript envNotFound tc001Prog).2.countP isClickEv = 1 ∧
    (runScript envNotFound tc001Prog).2.countP isFillEv = 0 :=
  ⟨by decide, by decide, by decide⟩

/-- C4 amended: a fill or click step that fails within its bounded timeout
raises `TimeoutError`, which propagates: the failed attempt is recorded, no
statement of the remaining sequence executes, and control passes directly to
the teardown. -/
theorem failing_step_raises_and_skips_rest (env : Env) (st : St) (r : ElemRef)
    (tmo : Nat) (rest : List Stmt) (h : st.elemVar = some r)
    (hfail : actionSucceeds env st r = false) :
    execStmts env st (Stmt.click tmo :: rest) =
      .error (.timeoutError,
        tick (emit st (Ev.evClick r.pageId (lastPageId st) r.path st.clock false))) ∧
    ∀ v, execStmts env st (Stmt.fill v :: rest) =
      .error (.timeoutError,
        tick (emit st (Ev.evFill r.pageId (lastPageId st) r.path v st.clock false))) := by
  constructor
  · simp [execStmts, execStmt, h, hfail]
  · intro v
    simp [execStmts, execStmt, h, hfail]

/-- State of a run that has bound `elem` to a locator whose path matches
nothing. -/
def stClickFail : St :=
  { initSt envNotFound with elemVar := some ⟨0, "xpath=html/body/div", 0⟩ }

theorem failing_step_raises_and_skips_rest_witness :
    stClickFail.elemVar = some ⟨0, "xpath=html/body/div", 0⟩ ∧
    actionSucceeds envNotFound stClickFail ⟨0, "xpath=html/body/div", 0⟩ = false ∧
    execStmts envNotFound stClickFail [Stmt.click 5000, Stmt.fill "x"] =
      .error (.timeoutError, tick (emit stClickFail
        (Ev.evClick 0 0 "xpath=html/body/div" 0 false))) :=
  ⟨rfl, rfl, by
    simpa using (failing_step_raises_and_skips_rest envNotFound stClickFail
      ⟨0, "xpath=html/body/div", 0⟩ 5000 [Stmt.fill "x"] rfl rfl).1⟩

/-- C6 counterexample: TC011 contains a navigate step that waits for the full
`load` event (no `wait_until` argument), and in a run where every navigation
reaches its commit point but never the `load` event, that step fails and its
failure propagates — the run ends in `Error` — refuting "every navigate waits
only until the commit point, with full-load failures never propagated". -/
theorem full_load_navigation_exists :
    Stmt.goto "http://localhost:3000/jobs" WaitUntil.load 10000 ∈ tc011Prog ∧
    (runScript envLoadFails tc011Prog).1 = Verdict.error ∧
    Ev.evGoto "http://localhost:3000/jobs" WaitUntil.load 10000 false ∈
      (runScript envLoadFails tc011Prog).2 :=
  ⟨by decide, by decide, by decide⟩

/-- C6 amended: the initial navigation of each script waits only until the
network commit point (its success is independent of whether the `load` event
is ever reached) and is followed by a separate best-effort DOM-content-loaded
wait that never propagates its failure; the later navigate steps omit
`wait_until` and therefore wait for the full `load` event, and their failure
does propagate. -/
theorem initial_commit_later_full_load :
    preludeStmts.head? = some (Stmt.goto "http://localhost:3000" WaitUntil.commit 10000) ∧
    (∀ (env : Env) (f : Nat → Bool) (st : St) (url : String) (tmo : Nat),
        execStmt { env with loadOk := f } st (Stmt.goto url WaitUntil.commit tmo) =
          execStmt env st (Stmt.goto url WaitUntil.commit tmo)) ∧
    (∀ (env : Env) (st : St) (tmo : Nat),
        ∃ st', execStmt env st (Stmt.bestEffortLoadWait tmo) = .ok st' ∧
          st'.events = st.events ++ [Ev.evWaitLoad st.pageVar (env.waitOk st.clock)]) ∧
    (∀ (env : Env) (st : St) (url : String) (tmo : Nat),
        env.commitOk st.clock = true → env.loadOk st.clock = false →
        execStmt env st (Stmt.goto url WaitUntil.load tmo) =
          .error (.timeoutError, tick (emit st (Ev.evGoto url WaitUntil.load tmo false)))) := by
  refine ⟨rfl, ?_, ?_, ?_⟩
  · intro env f st url tmo
    simp [execStmt, gotoSucceeds]
  · intro env st tmo
    cases h : env.waitOk st.clock
    · exact ⟨tick (emit st (Ev.evWaitLoad st.pageVar false)),
        by simp [execStmt, waitLoadState, h], by simp [tick, emit, h]⟩
    · exact ⟨tick (emit st (Ev.evWaitLoad st.pageVar true)),
        by simp [execStmt, waitLoadState, h], by simp [tick, emit, h]⟩
  · intro env st url tmo h1 h2
    simp [execStmt, gotoSucceeds, h1, h2]

theorem initial_commit_later_full_load_witness :
    envLoadFails.commitOk 0 = true ∧ envLoadFails.loadOk 0 = false ∧
    execStmt envLoadFails (initSt envLoadFails)
        (Stmt.goto "http://localhost:3000/jobs" WaitUntil.load 10000) =
      .error (.timeoutError, tick (emit (initSt envLoadFails)
        (Ev.evGoto "http://localhost:3000/jobs" WaitUntil.load 10000 false))) :=
  ⟨rfl, rfl, initial_commit_later_full_load.2.2.2 envLoadFails (initSt envLoadFails)
    "http://localhost:3000/jobs" 10000 rfl rfl⟩

/-- C8 counterexample: in a TC013 run where clicks open popup pages, some
click resolves its element against a page that is no longer the last open
page at the moment the step executes — the stored `logout_button` locator is
bound to the page captured when it was created, refuting "every step
re-resolves against the currently active frame at the moment it executes". -/
theorem stale_bound_click_exists :
    hasStaleClick (runScript envPopups tc013roleProg).2 = true := by decide

/-- C8 amended: element resolution is lazy and always fresh in time — an
interaction decides success from the DOM as it is at the interaction's own
clock, never from a cached element handle — and the scripts' four-line idiom
(`frame = context.pages[-1]; elem = frame.locator(p).nth(0); wait; click`)
also re-binds the locator to the page that is last at execution time; but a
stored locator (TC013's `logout_button` and dashboard variables) stays bound
to the page captured at its creation, which need not be the last open page
when the click executes. -/
theorem resolution_fresh_at_execution :
    (∀ (env : Env) (st : St) (p : String) (i w t : Nat),
        (stOf (execStmts env st
            [Stmt.lastPage, Stmt.locate p i, Stmt.waitTimeout w, Stmt.click t])).events
          = st.events ++ [Ev.evClick (lastPageId st) (lastPageId st) p (st.clock + 1)
              (decide (i < env.domCount (st.clock + 1) (lastPageId st) p) &&
                env.actionOk (st.clock + 1))]) ∧
    (∀ (env : Env) (st : St) (name : String) (t : Nat) (nr : String × ElemRef),
        (st.locals.find? fun q => q.1 == name) = some nr →
        (stOf (execStmt env st (Stmt.clickVar name t))).events
          = st.events ++ [Ev.evClick nr.2.pageId (lastPageId st) nr.2.path st.clock
              (actionSucceeds env st nr.2)]) := by
  constructor
  · intro env st p i w t
    have hsingle : ∀ (st2 : St) (s : Stmt),
        execStmts env st2 [s] = execStmt env st2 s := by
      intro st2 s
      cases h : execStmt env st2 s <;> simp [execStmts, h]
    have hstep : execStmts env st
        [Stmt.lastPage, Stmt.locate p i, Stmt.waitTimeout w, Stmt.click t]
        = execStmts env (tick { st with frameVar := lastPageId st, elemVar := some ⟨lastPageId st, p, i⟩ }) [Stmt.click t] := rfl
    rw [hstep, hsingle, execStmt_events]
    simp only [emitted, tick, emit, lastPageId, actionSucceeds, resolveRef]
    split <;> simp_all
  · intro env st name t nr h
    obtain ⟨a, r⟩ := nr
    rw [execStmt_events]
    simp [emitted, h]

/-- A state holding one stored locator named `logout_button`, bound to page 0
while page 1 is the last open page. -/
def stStored : St :=
  { initSt envPopups with
      locals := [("logout_button", ⟨0, "xpath=//button", 0⟩)], pages := [0, 1] }

theorem resolution_fresh_at_execution_witness :
    (stStored.locals.find? fun q => q.1 == "logout_button") =
        some ("logout_button", ⟨0, "xpath=//button", 0⟩) ∧
    (stOf (execStmt envPopups stStored (Stmt.clickVar "logout_button" 5000))).events
      = stStored.events ++ [Ev.evClick 0 (lastPageId stStored) "xpath=//button"
          stStored.clock (actionSucceeds envPopups stStored ⟨0, "xpath=//button", 0⟩)] :=
  ⟨rfl, resolution_fresh_at_execution.2 envPopups stStored "logout_button" 5000
    ("logout_button", ⟨0, "xpath=//button", 0⟩) rfl⟩

/-- C10: in any run of TC001, TC013 (System Build) or TC016 that reaches a
scroll statement, evaluating `window.innerHeight` raises `NameError` (the
name `window` is unbound in Python): the run's verdict is `Error`, nothing
after that statement executes — in particular not one assertion predicate of
those scripts is ever evaluated — and the trace ends with the scroll marker
followed only by the full teardown and the error verdict. -/
theorem window_scroll_name_error (env : Env) (p : List Stmt)
    (hp : p = tc001Prog ∨ p = tc013buildProg ∨ p = tc016Prog)
    (hreach : Ev.evScroll ∈ (runScript env p).2) :
    (runScript env p).1 = Verdict.error ∧
    ∃ pre, (runScript env p).2
        = pre ++ [Ev.evScroll] ++ teardownEvents ⟨true, true, true⟩ ++
            [Ev.evVerdict Verdict.error] ∧
      ∀ e ∈ pre, isScrollEv e = false ∧ isPredEv e = false := by
  have htr : (runScript env p).2 = eventsOf (tryBody env p) ++
      teardownEvents (acqOf env) ++ [Ev.evVerdict (runScript env p).1] := rfl
  rw [htr] at hreach
  have hbody : Ev.evScroll ∈ eventsOf (tryBody env p) := by
    rcases List.mem_append.mp hreach with hreach' | hv
    · rcases List.mem_append.mp hreach' with hbody | htd
      · exact hbody
      · have := teardownEvents_shape _ _ htd
        simp [isTeardownEv] at this
    · simp at hv
  cases h1 : env.startOk with
  | false =>
      have : tryBody env p = .error (.apiError, initSt env) := by simp [tryBody, h1]
      rw [this] at hbody
      simp [eventsOf, initSt] at hbody
  | true =>
  cases h2 : env.launchOk with
  | false =>
      have : tryBody env p = .error (.apiError, initSt env) := by simp [tryBody, h1, h2]
      rw [this] at hbody
      simp [eventsOf, initSt] at hbody
  | true =>
  cases h3 : env.newContextOk with
  | false =>
      have : tryBody env p = .error (.apiError, initSt env) := by simp [tryBody, h1, h2, h3]
      rw [this] at hbody
      simp [eventsOf, initSt] at hbody
  | true =>
  cases h4 : env.newPageOk with
  | false =>
      have : tryBody env p = .error (.apiError, initSt env) := by
        simp [tryBody, h1, h2, h3, h4]
      rw [this] at hbody
      simp [eventsOf, initSt] at hbody
  | true =>
  have htry : tryBody env p = execStmts env (initSt env) (preludeStmts ++ p) := by
    simp [tryBody, h1, h2, h3, h4]
  rw [htry, eventsOf_eq_stOf] at hbody
  have hnp : noPredBeforeWheel (preludeStmts ++ p) = true := by
    rcases hp with rfl | rfl | rfl <;> decide
  obtain ⟨st', herr, pre, hev, hpre⟩ := wheel_stops env (preludeStmts ++ p) (initSt env)
    hnp (by intro e he; simp [initSt] at he) hbody
  have hclass : (runScript env p).1 = Verdict.error := by
    show classify (tryBody env p) = Verdict.error
    rw [htry, herr]
    rfl
  have hacq : acqOf env = ⟨true, true, true⟩ := by simp [acqOf, h1, h2, h3]
  refine ⟨hclass, pre, ?_, hpre⟩
  rw [htr, hacq, hclass, htry, herr]
  simp [eventsOf, hev]

theorem window_scroll_name_error_witness :
    Ev.evScroll ∈ (runScript envAllOk tc001Prog).2 ∧
    ((runScript envAllOk tc001Prog).1 = Verdict.error ∧
      ∃ pre, (runScript envAllOk tc001Prog).2
          = pre ++ [Ev.evScroll] ++ teardownEvents ⟨true, true, true⟩ ++
              [Ev.evVerdict Verdict.error] ∧
        ∀ e ∈ pre, isScrollEv e = false ∧ isPredEv e = false) :=
  ⟨by decide, window_scroll_name_error envAllOk tc001Prog (Or.inl rfl) (by decide)⟩

end JobPortal
